import Mathlib

/-!
Shallow embedding of the Cockpit dashboard aggregation and visualization
pipeline (app/page.tsx and app/goals/[id]/page.tsx).

Modelling conventions:
* `entry_date` ('YYYY-MM-DD' strings in the source, compared via
  `new Date(s).getTime()`) is modelled as the date's epoch day number
  (`Int`).  For the canonical zero-padded format used by the database,
  string equality, date equality and day-number equality coincide.
* `created_at` timestamps are modelled as epoch instants (`Int`).
* JavaScript numbers appearing in the chart arithmetic are modelled as
  rationals (`ℚ`); the NaN / Infinity edge cases of the target-value
  guard get a dedicated `JsNum` type further below.
* `Array.prototype.sort` (stable per ES2019) with comparator `cmp` is
  modelled as `List.mergeSort` with `le a b := cmp a b ≤ 0`; core's
  `mergeSort` is stable, matching the JS semantics.
-/

inductive GoalType where
  | north_star
  | mid_term
  | habit
deriving DecidableEq

inductive TrackerKind where
  | checkin
  | numeric
deriving DecidableEq

/-- The `Goal` row type from app/page.tsx (lines 8-28). -/
structure Goal where
  id : String
  user_id : Option String
  title : String
  description : Option String
  goal_type : GoalType
  tracker_type : Option TrackerKind
  unit : Option String
  target_value : Option ℚ
  target_date : Option Int
  is_pinned : Bool
  is_hidden : Bool
  sort_order : Int
  created_at : Int
  updated_at : Int
deriving DecidableEq

/-- The `GoalEntry` row type from app/page.tsx (lines 30-38):
`entry_date` is the epoch day number of the 'YYYY-MM-DD' date. -/
structure GoalEntry where
  id : String
  goal_id : String
  entry_date : Int
  is_done : Option Bool
  value : Option ℚ
  reflection : Option String
  created_at : Int
deriving DecidableEq

/-- The "most recent first" comparator used to build `latestEntriesByGoal`
(app/page.tsx lines 149-158) and the History list
(app/goals/[id]/page.tsx lines 617-629): an entry `a` may precede `b`
when `a.entry_date` is later, ties broken by later `created_at`. -/
def histLE (a b : GoalEntry) : Bool :=
  if a.entry_date = b.entry_date then
    decide (b.created_at ≤ a.created_at)
  else
    decide (b.entry_date ≤ a.entry_date)

/-- The chronological ordering requested from the entry store:
`.order("entry_date", ascending).order("created_at", ascending)`
(app/page.tsx lines 124-129, app/goals/[id]/page.tsx lines 122-127). -/
def chronLE (a b : GoalEntry) : Bool :=
  if a.entry_date = b.entry_date then
    decide (a.created_at ≤ b.created_at)
  else
    decide (a.entry_date ≤ b.entry_date)

theorem histLE_trans (a b c : GoalEntry) (h1 : histLE a b) (h2 : histLE b c) :
    histLE a c := by
  simp only [histLE] at *
  split at h1 <;> split at h2 <;> split <;> simp_all <;> omega

theorem histLE_total (a b : GoalEntry) : histLE a b || histLE b a := by
  simp only [histLE]
  split <;> split <;> simp_all <;> omega

theorem chronLE_trans (a b c : GoalEntry) (h1 : chronLE a b) (h2 : chronLE b c) :
    chronLE a c := by
  simp only [chronLE] at *
  split at h1 <;> split at h2 <;> split <;> simp_all <;> omega

theorem chronLE_total (a b : GoalEntry) : chronLE a b || chronLE b a := by
  simp only [chronLE]
  split <;> split <;> simp_all <;> omega

/-- The entry list as delivered to the dashboard / detail page: the raw
rows sorted by the store's declared ascending order. -/
def chronFetch (es : List GoalEntry) : List GoalEntry :=
  es.mergeSort chronLE

/-- The descending re-sort building the latest-entry map
(app/page.tsx lines 147-158): a stable sorted copy of the fetched list. -/
def recentSorted (es : List GoalEntry) : List GoalEntry :=
  (chronFetch es).mergeSort histLE

/-- The latest-entry map of `getDashboardData` (app/page.tsx lines
159-163): walking the descending-sorted entries and keeping the first
entry seen per goal id is exactly `find?` on that list. -/
def latestEntriesByGoal (es : List GoalEntry) (gid : String) : Option GoalEntry :=
  (recentSorted es).find? (fun e => e.goal_id == gid)

/-- The History list of the goal-detail page for one goal: the store
returns that goal's rows ascending (lines 122-127), and the page sorts a
copy most-recent-first (lines 616-629). -/
def historyListFor (es : List GoalEntry) (gid : String) : List GoalEntry :=
  (chronFetch (es.filter (fun e => e.goal_id == gid))).mergeSort histLE

section SortLemmas

variable {α : Type _}

theorem find_eq_head_filter (p : α → Bool) :
    ∀ l : List α, l.find? p = (l.filter p).head? := by
  intro l
  induction l with
  | nil => rfl
  | cons a l ih =>
    by_cases h : p a
    · rw [List.find?_cons_of_pos _ h, List.filter_cons_of_pos h]
      rfl
    · rw [List.find?_cons_of_neg _ h, List.filter_cons_of_neg h]
      exact ih

theorem splitByPred {Q : α → Bool} :
    ∀ {u : List α} {u' v v' : List α}, u ++ v = u' ++ v' →
    (∀ x ∈ u, Q x = true) → (∀ x ∈ v, Q x = false) →
    (∀ x ∈ u', Q x = true) → (∀ x ∈ v', Q x = false) →
    u = u' ∧ v = v' := by
  intro u
  induction u with
  | nil =>
    intro u' v v' heq _ hv hu' hv'
    cases u' with
    | nil => simpa using heq
    | cons a u' =>
      exfalso
      have ha : a ∈ v := by
        rw [List.nil_append] at heq
        rw [heq]
        exact List.mem_append.mpr (Or.inl (List.mem_cons_self a u'))
      have := hv a ha
      have := hu' a (List.mem_cons_self a u')
      simp_all
  | cons a u ih =>
    intro u' v v' heq hu hv hu' hv'
    cases u' with
    | nil =>
      exfalso
      have ha : a ∈ v' := by
        rw [List.nil_append] at heq
        rw [← heq]
        exact List.mem_append.mpr (Or.inl (List.mem_cons_self a u))
      have := hv' a ha
      have := hu a (List.mem_cons_self a u)
      simp_all
    | cons b u' =>
      rw [List.cons_append, List.cons_append] at heq
      have hab : a = b := (List.cons.injEq _ _ _ _).mp heq |>.1
      have htail : u ++ v = u' ++ v' := (List.cons.injEq _ _ _ _).mp heq |>.2
      obtain ⟨h1, h2⟩ := ih htail
        (fun x hx => hu x (List.mem_cons_of_mem a hx)) hv
        (fun x hx => hu' x (List.mem_cons_of_mem b hx)) hv'
      exact ⟨by rw [hab, h1], h2⟩

/-- A stable sort commutes with `filter`: the key step behind the
latest-entry / History agreement. -/
theorem filter_mergeSort_of_trans_total (le : α → α → Bool)
    (htrans : ∀ a b c, le a b → le b c → le a c)
    (htotal : ∀ a b, le a b || le b a) (p : α → Bool) :
    ∀ l : List α, (l.mergeSort le).filter p = (l.filter p).mergeSort le := by
  intro l
  induction l with
  | nil => simp
  | cons a l ih =>
    obtain ⟨l₁, l₂, h1, h2, h3⟩ := List.mergeSort_cons htrans htotal a l
    by_cases hpa : p a
    · obtain ⟨m₁, m₂, g1, g2, g3⟩ :=
        List.mergeSort_cons htrans htotal a (l.filter p)
      rw [List.filter_cons_of_pos hpa, g1, h1, List.filter_append,
        List.filter_cons_of_pos hpa]
      have heq : l₁.filter p ++ l₂.filter p = m₁ ++ m₂ := by
        rw [← List.filter_append, ← h2, ih, g2]
      have hs1 : (List.mergeSort (a :: l) le).Pairwise (le · ·) :=
        List.sorted_mergeSort htrans htotal _
      rw [h1] at hs1
      have hl₂ : ∀ b ∈ l₂, le a b := by
        intro b hb
        exact (List.pairwise_cons.mp (List.pairwise_append.mp hs1).2.1).1 b hb
      have hs2 : (List.mergeSort (a :: l.filter p) le).Pairwise (le · ·) :=
        List.sorted_mergeSort htrans htotal _
      rw [g1] at hs2
      have hm₂ : ∀ b ∈ m₂, le a b := by
        intro b hb
        exact (List.pairwise_cons.mp (List.pairwise_append.mp hs2).2.1).1 b hb
      obtain ⟨e1, e2⟩ := splitByPred (Q := fun x => !(le a x)) heq
        (by
          intro x hx
          have := h3 x (List.mem_of_mem_filter hx)
          simpa using this)
        (by
          intro x hx
          have := hl₂ x (List.mem_of_mem_filter hx)
          simpa using this)
        (fun x hx => by simpa using g3 x hx)
        (fun x hx => by simpa using hm₂ x hx)
      rw [e1, e2]
    · rw [h1, List.filter_append, List.filter_cons_of_neg hpa,
        ← List.filter_append, ← h2, ih, List.filter_cons_of_neg hpa]

theorem mergeSort_pair (le : α → α → Bool) (a b : α) :
    [a, b].mergeSort le = if le a b then [a, b] else [b, a] := by
  rw [List.mergeSort]
  simp [List.splitInTwo, List.splitAt_eq, List.merge]

end SortLemmas

/-- Gregorian leap-year rule (as implemented by the JS `Date` engine the
calendar code relies on). -/
def isLeapYear (y : Int) : Bool :=
  (y % 4 == 0 && y % 100 != 0) || y % 400 == 0

/-- Number of days in month `m` (1-12) of year `y`: the value of
`new Date(year, month + 1, 0).getDate()` (app/page.tsx line 187). -/
def daysInMonth (y : Int) (m : Nat) : Nat :=
  if m = 2 then (if isLeapYear y then 29 else 28)
  else if m = 4 ∨ m = 6 ∨ m = 9 ∨ m = 11 then 30
  else 31

/-- Epoch day number of the civil date `(y, m, d)` (days since
1970-01-01, proleptic Gregorian); this is `new Date(y, m-1, d).getTime()`
divided by 86,400,000. -/
def daysFromCivil (y : Int) (m : Nat) (d : Nat) : Int :=
  let y' : Int := if m ≤ 2 then y - 1 else y
  let era : Int := (if 0 ≤ y' then y' else y' - 399) / 400
  let yoe : Int := y' - era * 400
  let mp : Nat := (m + 9) % 12
  let doy : Int := (153 * (mp : Int) + 2) / 5 + (d : Int) - 1
  let doe : Int := yoe * 365 + yoe / 4 - yoe / 100 + doy
  era * 146097 + doe - 719468

/-- Civil date `(year, month, day)` of an epoch day number (inverse of
`daysFromCivil` on valid dates). -/
def civilFromDays (z₀ : Int) : Int × Nat × Nat :=
  let z : Int := z₀ + 719468
  let era : Int := (if 0 ≤ z then z else z - 146096) / 146097
  let doe : Int := z - era * 146097
  let yoe : Int := (doe - doe / 1460 + doe / 36524 - doe / 146096) / 365
  let y : Int := yoe + era * 400
  let doy : Int := doe - (365 * yoe + yoe / 4 - yoe / 100)
  let mp : Int := (5 * doy + 2) / 153
  let d : Nat := (doy - (153 * mp + 2) / 5 + 1).toNat
  let m : Nat := (if mp < 10 then mp + 3 else mp - 9).toNat
  (if m ≤ 2 then y + 1 else y, m, d)

/-- Weekday (0 = Sunday .. 6 = Saturday) of an epoch day number:
1970-01-01 was a Thursday.  This is `Date.prototype.getDay`. -/
def weekdayOfDay (z : Int) : Nat :=
  ((z + 4) % 7).toNat

/-- Weekday of the first day of month `m` of year `y`:
`new Date(year, month, 1).getDay()` (app/page.tsx lines 185-186). -/
def firstWeekdayOfMonth (y : Int) (m : Nat) : Nat :=
  weekdayOfDay (daysFromCivil y m 1)

/-- Zero-pad a number to two digits, as `String(x).padStart(2, "0")`. -/
def pad2 (n : Nat) : String :=
  if n < 10 then "0" ++ toString n else toString n

/-- The `en-GB` short date label `dd/mm/yyyy` produced by
`new Date(dateStr).toLocaleDateString("en-GB")` for an epoch day number. -/
def dateLabelGB (z : Int) : String :=
  let c := civilFromDays z
  pad2 c.2.2 ++ "/" ++ pad2 c.2.1 ++ "/" ++ toString c.1

/-- The per-card latest summary (app/page.tsx lines 62-90).  Number
rendering uses `toString` in place of JS number formatting; the branch
structure and all fixed strings follow the source. -/
def formatLatestSummary (trackerType : Option TrackerKind)
    (entry : Option GoalEntry) (unit : Option String) : String :=
  match entry with
  | none => "No entries yet"
  | some e =>
    let dateLabel := dateLabelGB e.entry_date
    match trackerType with
    | some TrackerKind.checkin =>
      match e.is_done with
      | some true => "Last check-in: Done (" ++ dateLabel ++ ")"
      | some false => "Last check-in: Not done (" ++ dateLabel ++ ")"
      | none => "Last check-in: Logged (" ++ dateLabel ++ ")"
    | some TrackerKind.numeric =>
      match e.value with
      | none => "Last entry: " ++ dateLabel
      | some v =>
        let valueText :=
          match unit with
          | some u => toString v ++ " " ++ u
          | none => toString v
        "Last entry: " ++ valueText ++ " (" ++ dateLabel ++ ")"
    | none => "Last update: " ++ dateLabel

theorem daysFromCivil_epoch : daysFromCivil 1970 1 1 = 0 := by decide

theorem weekday_june_first_2024 : weekdayOfDay (daysFromCivil 2024 6 1) = 6 := by
  decide

theorem daysInMonth_june_2024 : daysInMonth 2024 6 = 30 := by decide

theorem civilFromDays_roundtrip_sample :
    civilFromDays (daysFromCivil 2024 6 15) = (2024, 6, 15) := by decide

/-- JS `Math.min(...values)` as a left fold; the empty case never arises
behind the renderer's length guard and defaults to `0`. -/
def jsMinList : List ℚ → ℚ
  | [] => 0
  | v :: vs => vs.foldl min v

/-- JS `Math.max(...values)` as a left fold; the empty case never arises
behind the renderer's length guard and defaults to `0`. -/
def jsMaxList : List ℚ → ℚ
  | [] => 0
  | v :: vs => vs.foldl max v

/-- The numeric values extracted for charting:
`entries.filter((e) => e.value !== null).map((e) => e.value as number)`. -/
def numericValues (es : List GoalEntry) : List ℚ :=
  (es.filter (fun e => e.value.isSome)).map (fun e => e.value.getD 0)

/-- Everything the dashboard numeric chart (app/page.tsx lines 250-373)
computes: the displayed min/max labels, the plotting scale, the polyline
points, the computed target-line Y and whether the target line is
emitted. -/
structure NumericChart where
  minVal : ℚ
  maxVal : ℚ
  scaleMin : ℚ
  scaleMax : ℚ
  range : ℚ
  stepX : ℚ
  points : List (ℚ × ℚ)
  hasTarget : Bool
  targetY : Option ℚ
  targetLineShown : Bool
deriving DecidableEq

/-- The body of the dashboard numeric chart (app/page.tsx lines 258-303),
computed once the zero-numeric-entries guard has passed. -/
def renderNumericChartCore (numericEntries : List GoalEntry)
    (targetValue : Option ℚ) : NumericChart :=
    let values := numericEntries.map (fun e => e.value.getD 0)
    let minVal := jsMinList values
    let maxVal := jsMaxList values
    let hasTarget := targetValue.isSome
    let scaleMin := match targetValue with
      | some t => min minVal t
      | none => minVal
    let scaleMax := match targetValue with
      | some t => max maxVal t
      | none => maxVal
    let range : ℚ := if scaleMax - scaleMin = 0 then 1 else scaleMax - scaleMin
    let width : ℚ := 320
    let height : ℚ := 120
    let paddingX : ℚ := 16
    let paddingY : ℚ := 12
    let stepX : ℚ :=
      if numericEntries.length > 1 then
        (width - paddingX * 2) / ((numericEntries.length : ℚ) - 1)
      else 0
    let points := numericEntries.enum.map (fun ie =>
      (paddingX + (ie.1 : ℚ) * stepX,
       height - paddingY -
         ((ie.2.value.getD 0 - scaleMin) / range) * (height - paddingY * 2)))
    let targetY : Option ℚ := match targetValue with
      | some t =>
        if 0 < range then
          some (height - paddingY -
            ((t - scaleMin) / range) * (height - paddingY * 2))
        else none
      | none => none
    let targetLineShown := match targetY with
      | some ty =>
        hasTarget && decide (paddingY ≤ ty) && decide (ty ≤ height - paddingY)
      | none => false
    { minVal, maxVal, scaleMin, scaleMax, range, stepX, points,
      hasTarget, targetY, targetLineShown }

/-- The dashboard numeric chart, `renderNumericChart` of app/page.tsx
(lines 250-373), at the level of finite (rational) values: `none` models
the early `return null` for zero numeric entries.  `targetValue` here is
an already-guard-passed finite target; the NaN/Infinity guard itself is
modelled separately on `JsNum` below. -/
def renderNumericChart (entries : List GoalEntry) (targetValue : Option ℚ) :
    Option NumericChart :=
  let numericEntries := entries.filter (fun e => e.value.isSome)
  if numericEntries.isEmpty then none
  else some (renderNumericChartCore numericEntries targetValue)

/-- What the goal-detail page's sibling chart computes
(app/goals/[id]/page.tsx lines 292-319): same geometry, no target. -/
structure DetailChart where
  minVal : ℚ
  maxVal : ℚ
  range : ℚ
  stepX : ℚ
  points : List (ℚ × ℚ)
deriving DecidableEq

/-- The body of the goal-detail chart (app/goals/[id]/page.tsx lines
295-317), computed once the zero-numeric-entries guard has passed. -/
def detailRenderNumericChartCore (numericEntries : List GoalEntry) :
    DetailChart :=
    let values := numericEntries.map (fun e => e.value.getD 0)
    let minVal := jsMinList values
    let maxVal := jsMaxList values
    let range : ℚ := if maxVal - minVal = 0 then 1 else maxVal - minVal
    let width : ℚ := 320
    let height : ℚ := 120
    let paddingX : ℚ := 16
    let paddingY : ℚ := 12
    let stepX : ℚ :=
      if numericEntries.length > 1 then
        (width - paddingX * 2) / ((numericEntries.length : ℚ) - 1)
      else 0
    let points := numericEntries.enum.map (fun ie =>
      (paddingX + (ie.1 : ℚ) * stepX,
       height - paddingY -
         ((ie.2.value.getD 0 - minVal) / range) * (height - paddingY * 2)))
    { minVal, maxVal, range, stepX, points }

/-- The goal-detail page's `renderNumericChart`
(app/goals/[id]/page.tsx lines 292-319). -/
def detailRenderNumericChart (entries : List GoalEntry) : Option DetailChart :=
  let numericEntries := entries.filter (fun e => e.value.isSome)
  if numericEntries.isEmpty then none
  else some (detailRenderNumericChartCore numericEntries)

/-- A JavaScript number as seen by the target-value guard: NaN, an
infinity, or a finite value. -/
inductive JsNum where
  | nan
  | posInf
  | negInf
  | fin (q : ℚ)
deriving DecidableEq

def jsNumIsNaN : JsNum → Bool
  | JsNum.nan => true
  | _ => false

/-- The guard of app/page.tsx lines 262-263:
`typeof targetValue === "number" && !Number.isNaN(targetValue)`.
A `null` target (`none`) is not a number; NaN is rejected; finite values
and infinities pass. -/
def hasTargetJs : Option JsNum → Bool
  | some v => !jsNumIsNaN v
  | none => false

def finiteTargetValue : Option JsNum → Option ℚ
  | some (JsNum.fin q) => some q
  | _ => none

/-- The dashboard chart applied to a raw `target_value` column.  Faithful
for `null`, NaN and finite targets (a NaN target fails the guard and all
downstream `hasTarget` branches, exactly as passing no target); infinite
targets lie outside the rational embedding and are not reasoned about. -/
def renderNumericChartJs (entries : List GoalEntry) (tv : Option JsNum) :
    Option NumericChart :=
  renderNumericChart entries (finiteTargetValue tv)

/-- A civil calendar date (the reference "today" the calendar is anchored
to; the source reads it from `new Date()`, the spec injects it). -/
structure CalDate where
  year : Int
  month : Nat
  day : Nat
deriving DecidableEq

def toDayNumber (c : CalDate) : Int :=
  daysFromCivil c.year c.month c.day

/-- The leading-blank loop of app/page.tsx line 190:
`for (let i = 0; i < startWeekday; i++) cells.push(null)`. -/
def blankCells : Nat → List (Option Nat)
  | 0 => []
  | n + 1 => blankCells n ++ [none]

/-- The day loop of app/page.tsx line 191:
`for (let d = 1; d <= daysInMonth; d++) cells.push(d)`. -/
def dayCells : Nat → List (Option Nat)
  | 0 => []
  | n + 1 => dayCells n ++ [some (n + 1)]

inductive CellTag where
  | done
  | today
  | plain
deriving DecidableEq

/-- The distinct done-date keys (app/page.tsx lines 172-177): entry dates
whose `is_done` is truthy, i.e. `true`. -/
def doneDateKeys (entries : List GoalEntry) : List Int :=
  (entries.filter (fun e => e.is_done == some true)).map (fun e => e.entry_date)

/-- The tag branch of app/page.tsx lines 222-236: done wins over today,
today wins over plain. -/
def cellTagOf (todayKey : Int) (doneKeys : List Int) (key : Int) : CellTag :=
  if doneKeys.contains key then CellTag.done
  else if key == todayKey then CellTag.today
  else CellTag.plain

/-- The check-in calendar, `renderCheckinCalendar` of app/page.tsx
(lines 169-247), with the render-time reference date passed explicitly:
`none` models the `return null` paths (no entries / no done days); a
blank cell is `none`, a day cell carries its day of month and tag. -/
def renderCheckinCalendar (today : CalDate) (entries : List GoalEntry) :
    Option (List (Option (Nat × CellTag))) :=
  if entries.isEmpty then none
  else
    let doneDates := doneDateKeys entries
    if doneDates.isEmpty then none
    else
      let year := today.year
      let month := today.month
      let startWeekday := firstWeekdayOfMonth year month
      let nDays := daysInMonth year month
      let cells := blankCells startWeekday ++ dayCells nDays
      let todayKey := toDayNumber today
      some (cells.map (fun c => c.map (fun d =>
        (d, cellTagOf todayKey doneDates (daysFromCivil year month d)))))

/-- The value `getDashboardData` resolves to (app/page.tsx lines 93-166):
the goal list plus the two per-goal lookup maps, modelled as functions
from goal id. -/
structure DashboardData where
  goals : List Goal
  latestFor : String → Option GoalEntry
  entriesFor : String → List GoalEntry

/-- The fetch step `getDashboardData` of app/page.tsx (lines 93-166).  The two store
reads are modelled by their responses: an `Except.error` is the query's
error branch.  On a goals error everything is empty; on zero goals the
entry query is skipped; on an entries error the goals are kept and both
maps stay empty; otherwise the store returns the rows for the fetched
goal ids in ascending `(entry_date, created_at)` order and the maps are
built from them. -/
def getDashboardData (goalsRes : Except Unit (List Goal))
    (entriesRes : Except Unit (List GoalEntry)) : DashboardData :=
  match goalsRes with
  | Except.error _ => ⟨[], fun _ => none, fun _ => []⟩
  | Except.ok typedGoals =>
    if typedGoals.isEmpty then ⟨[], fun _ => none, fun _ => []⟩
    else
      match entriesRes with
      | Except.error _ => ⟨typedGoals, fun _ => none, fun _ => []⟩
      | Except.ok rows =>
        let entries :=
          rows.filter (fun e => typedGoals.any (fun g => g.id == e.goal_id))
        ⟨typedGoals,
         fun gid => latestEntriesByGoal entries gid,
         fun gid => (chronFetch entries).filter (fun e => e.goal_id == gid)⟩

/-- The pinned/other partition of `DashboardPage`
(app/page.tsx lines 379-380). -/
def buildDashboardViewModel (goals : List Goal) : List Goal × List Goal :=
  (goals.filter (fun g => g.is_pinned), goals.filter (fun g => !g.is_pinned))

/-- Concrete sample entries used by the witnesses below.  `entA` and
`entB` share an entry date (created in that order); `entC` is a later
check-in entry of another goal. -/
def entA : GoalEntry := ⟨"a", "g1", 19900, none, some 70, none, 100⟩

def entB : GoalEntry := ⟨"b", "g1", 19900, none, some 71, none, 200⟩

def entC : GoalEntry := ⟨"c", "g2", 19901, some true, none, none, 300⟩

/-- C1: for every entry set and goal, the dashboard's latest-entry
selection (first of the `entry_date` desc, `created_at` desc stable sort)
equals the head of the goal's History list under the same ordering; when
the goal has no entries the selection is `none` and the card renders the
"No entries yet" summary instead of failing. -/
theorem latest_agrees_with_history_head (es : List GoalEntry) (gid : String) :
    latestEntriesByGoal es gid = (historyListFor es gid).head? ∧
    (es.filter (fun e => e.goal_id == gid) = [] →
      latestEntriesByGoal es gid = none ∧
      ∀ t u, formatLatestSummary t (latestEntriesByGoal es gid) u =
        "No entries yet") := by
  have hmain : latestEntriesByGoal es gid = (historyListFor es gid).head? := by
    rw [latestEntriesByGoal, recentSorted, chronFetch, find_eq_head_filter,
      filter_mergeSort_of_trans_total histLE histLE_trans histLE_total,
      filter_mergeSort_of_trans_total chronLE chronLE_trans chronLE_total]
    rfl
  refine ⟨hmain, fun h => ?_⟩
  have hnone : latestEntriesByGoal es gid = none := by
    rw [hmain, historyListFor, chronFetch, h]
    simp [List.mergeSort_nil]
  exact ⟨hnone, fun t u => by rw [hnone]; rfl⟩

/-- C1 witness. -/
theorem latest_agrees_with_history_head_witness :
    latestEntriesByGoal [entA, entB, entC] "g1" =
      (historyListFor [entA, entB, entC] "g1").head? ∧
    latestEntriesByGoal [entA, entB, entC] "nope" = none ∧
    formatLatestSummary (some TrackerKind.checkin)
      (latestEntriesByGoal [entA, entB, entC] "nope") none =
      "No entries yet" := by
  refine ⟨(latest_agrees_with_history_head [entA, entB, entC] "g1").1, ?_, ?_⟩
  · exact ((latest_agrees_with_history_head [entA, entB, entC] "nope").2
      (by decide)).1
  · exact ((latest_agrees_with_history_head [entA, entB, entC] "nope").2
      (by decide)).2 (some TrackerKind.checkin) none

/-- C2: when entry dates are pairwise distinct, the chronological fetch
order feeding the trend chart is the exact reverse of the History
ordering; and for two same-day entries the History order is
later-created first while the chronological order is earlier-created
first. -/
theorem trend_input_reverse_of_history (es : List GoalEntry)
    (hdist : es.Pairwise (fun a b => a.entry_date ≠ b.entry_date))
    (e1 e2 : GoalEntry) (hdate : e1.entry_date = e2.entry_date)
    (hc : e1.created_at < e2.created_at) :
    chronFetch es = ((chronFetch es).mergeSort histLE).reverse ∧
    [e1, e2].mergeSort histLE = [e2, e1] ∧
    [e1, e2].mergeSort chronLE = [e1, e2] := by
  refine ⟨?_, ?_, ?_⟩
  · have hsym : ∀ {x y : GoalEntry},
        x.entry_date ≠ y.entry_date → y.entry_date ≠ x.entry_date :=
      fun h => Ne.symm h
    have hpermA : List.Perm (chronFetch es) es := List.mergeSort_perm es chronLE
    have hpermB : List.Perm ((chronFetch es).mergeSort histLE) (chronFetch es) :=
      List.mergeSort_perm (chronFetch es) histLE
    have hdistA : (chronFetch es).Pairwise (fun a b => a.entry_date ≠ b.entry_date) :=
      (hpermA.pairwise_iff hsym).mpr hdist
    have hdistB : ((chronFetch es).mergeSort histLE).Pairwise
        (fun a b => a.entry_date ≠ b.entry_date) :=
      (hpermB.pairwise_iff hsym).mpr hdistA
    have hsortA : (chronFetch es).Pairwise (fun a b => chronLE a b) :=
      List.sorted_mergeSort chronLE_trans chronLE_total es
    have hsortB : ((chronFetch es).mergeSort histLE).Pairwise
        (fun a b => histLE a b) :=
      List.sorted_mergeSort histLE_trans histLE_total (chronFetch es)
    have hstrictA : (chronFetch es).Pairwise
        (fun a b => a.entry_date < b.entry_date) := by
      refine (hsortA.and hdistA).imp ?_
      intro a b hab
      obtain ⟨h1, h2⟩ := hab
      simp only [chronLE] at h1
      rw [if_neg h2] at h1
      exact lt_of_le_of_ne (by simpa using h1) h2
    have hstrictB : ((chronFetch es).mergeSort histLE).Pairwise
        (fun a b => b.entry_date < a.entry_date) := by
      refine (hsortB.and hdistB).imp ?_
      intro a b hab
      obtain ⟨h1, h2⟩ := hab
      simp only [histLE] at h1
      rw [if_neg h2] at h1
      exact lt_of_le_of_ne (by simpa using h1) (Ne.symm h2)
    have hrev : ((chronFetch es).mergeSort histLE).reverse.Pairwise
        (fun a b => a.entry_date < b.entry_date) :=
      List.pairwise_reverse.mpr hstrictB
    have hperm : List.Perm (chronFetch es)
        ((chronFetch es).mergeSort histLE).reverse :=
      hpermB.symm.trans
        (List.reverse_perm ((chronFetch es).mergeSort histLE)).symm
    haveI : IsAntisymm GoalEntry (fun a b => a.entry_date < b.entry_date) :=
      ⟨fun a b h1 h2 => absurd (lt_trans h1 h2) (lt_irrefl _)⟩
    exact List.eq_of_perm_of_sorted hperm hstrictA hrev
  · rw [mergeSort_pair]
    have : histLE e1 e2 = false := by
      simp only [histLE, if_pos hdate]
      simpa using hc
    rw [this]
    rfl
  · rw [mergeSort_pair]
    have : chronLE e1 e2 = true := by
      simp only [chronLE, if_pos hdate]
      simpa using le_of_lt hc
    rw [this]
    rfl

/-- C2 witness. -/
theorem trend_input_reverse_of_history_witness :
    chronFetch [entC, entA] =
      ((chronFetch [entC, entA]).mergeSort histLE).reverse ∧
    [entA, entB].mergeSort histLE = [entB, entA] ∧
    [entA, entB].mergeSort chronLE = [entA, entB] :=
  trend_input_reverse_of_history [entC, entA] (by decide) entA entB
    (by decide) (by decide)

theorem renderNumericChart_some_iff {es : List GoalEntry} {tv : Option ℚ}
    {c : NumericChart} :
    renderNumericChart es tv = some c ↔
      (es.filter (fun e => e.value.isSome) ≠ [] ∧
       c = renderNumericChartCore (es.filter (fun e => e.value.isSome)) tv) := by
  unfold renderNumericChart
  by_cases h : (es.filter (fun e => e.value.isSome)).isEmpty
  · simp only [h, if_pos]
    simp only [List.isEmpty_iff] at h
    simp [h]
  · simp only [h, if_neg, Bool.not_eq_true]
    simp only [List.isEmpty_iff] at h
    simp [h, eq_comm]

theorem detailRenderNumericChart_some_iff {es : List GoalEntry}
    {c : DetailChart} :
    detailRenderNumericChart es = some c ↔
      (es.filter (fun e => e.value.isSome) ≠ [] ∧
       c = detailRenderNumericChartCore (es.filter (fun e => e.value.isSome))) := by
  unfold detailRenderNumericChart
  by_cases h : (es.filter (fun e => e.value.isSome)).isEmpty
  · simp only [h, if_pos]
    simp only [List.isEmpty_iff] at h
    simp [h]
  · simp only [h, if_neg, Bool.not_eq_true]
    simp only [List.isEmpty_iff] at h
    simp [h, eq_comm]

theorem foldl_min_le_init (l : List ℚ) (a : ℚ) : l.foldl min a ≤ a := by
  induction l generalizing a with
  | nil => exact le_refl a
  | cons x l ih =>
    exact le_trans (ih (min a x)) (min_le_left a x)

theorem foldl_min_le_mem (l : List ℚ) (a : ℚ) :
    ∀ x ∈ l, l.foldl min a ≤ x := by
  induction l generalizing a with
  | nil => intro x hx; cases hx
  | cons y l ih =>
    intro x hx
    rcases List.mem_cons.mp hx with h | h
    · subst h
      exact le_trans (foldl_min_le_init l (min a x)) (min_le_right a x)
    · exact ih (min a y) x h

theorem foldl_min_mem (l : List ℚ) (a : ℚ) :
    l.foldl min a = a ∨ l.foldl min a ∈ l := by
  induction l generalizing a with
  | nil => exact Or.inl rfl
  | cons x l ih =>
    rcases ih (min a x) with h | h
    · rcases min_choice a x with hm | hm
      · exact Or.inl (by rw [List.foldl_cons, h, hm])
      · exact Or.inr (by rw [List.foldl_cons, h, hm]; exact List.mem_cons_self x l)
    · exact Or.inr (List.mem_cons_of_mem x h)

theorem le_foldl_max_init (l : List ℚ) (a : ℚ) : a ≤ l.foldl max a := by
  induction l generalizing a with
  | nil => exact le_refl a
  | cons x l ih =>
    exact le_trans (le_max_left a x) (ih (max a x))

theorem mem_le_foldl_max (l : List ℚ) (a : ℚ) :
    ∀ x ∈ l, x ≤ l.foldl max a := by
  induction l generalizing a with
  | nil => intro x hx; cases hx
  | cons y l ih =>
    intro x hx
    rcases List.mem_cons.mp hx with h | h
    · subst h
      exact le_trans (le_max_right a x) (le_foldl_max_init l (max a x))
    · exact ih (max a y) x h

theorem foldl_max_mem (l : List ℚ) (a : ℚ) :
    l.foldl max a = a ∨ l.foldl max a ∈ l := by
  induction l generalizing a with
  | nil => exact Or.inl rfl
  | cons x l ih =>
    rcases ih (max a x) with h | h
    · rcases max_choice a x with hm | hm
      · exact Or.inl (by rw [List.foldl_cons, h, hm])
      · exact Or.inr (by rw [List.foldl_cons, h, hm]; exact List.mem_cons_self x l)
    · exact Or.inr (List.mem_cons_of_mem x h)

theorem jsMinList_le (l : List ℚ) (h : l ≠ []) : ∀ x ∈ l, jsMinList l ≤ x := by
  match l with
  | [] => exact absurd rfl h
  | v :: vs =>
    intro x hx
    rcases List.mem_cons.mp hx with h1 | h1
    · subst h1
      exact foldl_min_le_init vs x
    · exact foldl_min_le_mem vs v x h1

theorem le_jsMaxList (l : List ℚ) (h : l ≠ []) : ∀ x ∈ l, x ≤ jsMaxList l := by
  match l with
  | [] => exact absurd rfl h
  | v :: vs =>
    intro x hx
    rcases List.mem_cons.mp hx with h1 | h1
    · subst h1
      exact le_foldl_max_init vs x
    · exact mem_le_foldl_max vs v x h1

theorem jsMinList_mem (l : List ℚ) (h : l ≠ []) : jsMinList l ∈ l := by
  match l with
  | [] => exact absurd rfl h
  | v :: vs =>
    rcases foldl_min_mem vs v with h1 | h1
    · rw [jsMinList, h1]; exact List.mem_cons_self v vs
    · exact List.mem_cons_of_mem v h1

theorem jsMaxList_mem (l : List ℚ) (h : l ≠ []) : jsMaxList l ∈ l := by
  match l with
  | [] => exact absurd rfl h
  | v :: vs =>
    rcases foldl_max_mem vs v with h1 | h1
    · rw [jsMaxList, h1]; exact List.mem_cons_self v vs
    · exact List.mem_cons_of_mem v h1


theorem core_minVal (ne : List GoalEntry) (tv : Option ℚ) :
    (renderNumericChartCore ne tv).minVal =
      jsMinList (ne.map (fun e => e.value.getD 0)) := rfl

theorem core_maxVal (ne : List GoalEntry) (tv : Option ℚ) :
    (renderNumericChartCore ne tv).maxVal =
      jsMaxList (ne.map (fun e => e.value.getD 0)) := rfl

theorem core_scaleMin_some (ne : List GoalEntry) (t : ℚ) :
    (renderNumericChartCore ne (some t)).scaleMin =
      min (jsMinList (ne.map (fun e => e.value.getD 0))) t := rfl

theorem core_scaleMax_some (ne : List GoalEntry) (t : ℚ) :
    (renderNumericChartCore ne (some t)).scaleMax =
      max (jsMaxList (ne.map (fun e => e.value.getD 0))) t := rfl

theorem core_scaleMin_none (ne : List GoalEntry) :
    (renderNumericChartCore ne none).scaleMin =
      jsMinList (ne.map (fun e => e.value.getD 0)) := rfl

theorem core_scaleMax_none (ne : List GoalEntry) :
    (renderNumericChartCore ne none).scaleMax =
      jsMaxList (ne.map (fun e => e.value.getD 0)) := rfl

theorem core_range (ne : List GoalEntry) (tv : Option ℚ) :
    (renderNumericChartCore ne tv).range =
      (if (renderNumericChartCore ne tv).scaleMax -
          (renderNumericChartCore ne tv).scaleMin = 0 then 1
       else (renderNumericChartCore ne tv).scaleMax -
          (renderNumericChartCore ne tv).scaleMin) := by
  cases tv <;> rfl

theorem core_stepX (ne : List GoalEntry) (tv : Option ℚ) :
    (renderNumericChartCore ne tv).stepX =
      (if ne.length > 1 then (320 - 16 * 2) / ((ne.length : ℚ) - 1) else 0) := by
  cases tv <;> rfl

theorem core_points (ne : List GoalEntry) (tv : Option ℚ) :
    (renderNumericChartCore ne tv).points =
      ne.enum.map (fun ie =>
        (16 + (ie.1 : ℚ) * (renderNumericChartCore ne tv).stepX,
         120 - 12 - ((ie.2.value.getD 0 - (renderNumericChartCore ne tv).scaleMin) /
           (renderNumericChartCore ne tv).range) * (120 - 12 * 2))) := by
  cases tv <;> rfl

theorem core_targetY_some (ne : List GoalEntry) (t : ℚ) :
    (renderNumericChartCore ne (some t)).targetY =
      (if 0 < (renderNumericChartCore ne (some t)).range then
        some (120 - 12 - ((t - (renderNumericChartCore ne (some t)).scaleMin) /
          (renderNumericChartCore ne (some t)).range) * (120 - 12 * 2))
       else none) := rfl

theorem core_targetY_none (ne : List GoalEntry) :
    (renderNumericChartCore ne none).targetY = none := rfl

theorem core_hasTarget (ne : List GoalEntry) (tv : Option ℚ) :
    (renderNumericChartCore ne tv).hasTarget = tv.isSome := by
  cases tv <;> rfl

theorem core_targetLineShown (ne : List GoalEntry) (tv : Option ℚ) :
    (renderNumericChartCore ne tv).targetLineShown =
      (match (renderNumericChartCore ne tv).targetY with
       | some ty => tv.isSome && decide ((12 : ℚ) ≤ ty) &&
           decide (ty ≤ 120 - 12)
       | none => false) := by
  cases tv <;> rfl

/-- C3: with a target present, the plotting scale is the data range
extended by the target: `scaleMin = min(minVal, target)` and
`scaleMax = max(maxVal, target)`, so the scale covers the target and
every entry value. -/
theorem scale_contains_target_and_values (es : List GoalEntry) (t : ℚ)
    (c : NumericChart) (h : renderNumericChart es (some t) = some c) :
    c.scaleMin ≤ t ∧ t ≤ c.scaleMax ∧
    c.scaleMin ≤ c.minVal ∧ c.maxVal ≤ c.scaleMax ∧
    c.scaleMin = min c.minVal t ∧ c.scaleMax = max c.maxVal t ∧
    (∀ v ∈ numericValues es, c.minVal ≤ v ∧ v ≤ c.maxVal) := by
  obtain ⟨hne, hc⟩ := renderNumericChart_some_iff.mp h
  subst hc
  have hvne : (es.filter (fun e => e.value.isSome)).map
      (fun e => e.value.getD 0) ≠ [] := by
    intro hcontra
    exact hne (List.map_eq_nil_iff.mp hcontra)
  rw [core_scaleMin_some, core_scaleMax_some, core_minVal, core_maxVal]
  refine ⟨min_le_right _ _, le_max_right _ _, min_le_left _ _, le_max_left _ _,
    rfl, rfl, ?_⟩
  intro v hv
  exact ⟨jsMinList_le _ hvne v hv, le_jsMaxList _ hvne v hv⟩

/-- C3 witness. -/
theorem scale_contains_target_and_values_witness :
    (renderNumericChartCore ([entA, entB].filter (fun e => e.value.isSome))
        (some 68)).scaleMin ≤ 68 ∧
    (68 : ℚ) ≤ (renderNumericChartCore
        ([entA, entB].filter (fun e => e.value.isSome)) (some 68)).scaleMax ∧
    (renderNumericChartCore ([entA, entB].filter (fun e => e.value.isSome))
        (some 68)).scaleMin ≤
      (renderNumericChartCore ([entA, entB].filter (fun e => e.value.isSome))
        (some 68)).minVal ∧
    (renderNumericChartCore ([entA, entB].filter (fun e => e.value.isSome))
        (some 68)).maxVal ≤
      (renderNumericChartCore ([entA, entB].filter (fun e => e.value.isSome))
        (some 68)).scaleMax ∧
    (renderNumericChartCore ([entA, entB].filter (fun e => e.value.isSome))
        (some 68)).scaleMin =
      min (renderNumericChartCore ([entA, entB].filter (fun e => e.value.isSome))
        (some 68)).minVal 68 ∧
    (renderNumericChartCore ([entA, entB].filter (fun e => e.value.isSome))
        (some 68)).scaleMax =
      max (renderNumericChartCore ([entA, entB].filter (fun e => e.value.isSome))
        (some 68)).maxVal 68 ∧
    (∀ v ∈ numericValues [entA, entB],
      (renderNumericChartCore ([entA, entB].filter (fun e => e.value.isSome))
        (some 68)).minVal ≤ v ∧
      v ≤ (renderNumericChartCore ([entA, entB].filter (fun e => e.value.isSome))
        (some 68)).maxVal) :=
  scale_contains_target_and_values [entA, entB] 68 _
    (renderNumericChart_some_iff.mpr ⟨by decide, rfl⟩)

theorem core_scaleMin_le_scaleMax (ne : List GoalEntry) (tv : Option ℚ)
    (hne : ne ≠ []) :
    (renderNumericChartCore ne tv).scaleMin ≤
      (renderNumericChartCore ne tv).scaleMax := by
  have hvne : ne.map (fun e => e.value.getD 0) ≠ [] := by
    intro h
    exact hne (List.map_eq_nil_iff.mp h)
  cases tv with
  | none =>
    rw [core_scaleMin_none, core_scaleMax_none]
    exact le_jsMaxList _ hvne _ (jsMinList_mem _ hvne)
  | some t =>
    rw [core_scaleMin_some, core_scaleMax_some]
    exact le_trans (min_le_right _ _) (le_max_right _ _)

theorem core_range_pos (ne : List GoalEntry) (tv : Option ℚ) (hne : ne ≠ []) :
    0 < (renderNumericChartCore ne tv).range := by
  rw [core_range]
  by_cases h0 : (renderNumericChartCore ne tv).scaleMax -
      (renderNumericChartCore ne tv).scaleMin = 0
  · rw [if_pos h0]
    norm_num
  · rw [if_neg h0]
    have hle := core_scaleMin_le_scaleMax ne tv hne
    exact lt_of_le_of_ne (sub_nonneg.mpr hle) (Ne.symm h0)

/-- C4: whenever the chart is emitted, a zero scale range falls back to
`1` and the divisor is always positive (the y computation never divides
by zero); and for a single numeric entry with no target the single
emitted point is exactly `(16, 108)`, the left padding on the chart's
bottom edge. -/
theorem range_fallback_and_single_point (es : List GoalEntry) (tv : Option ℚ)
    (c : NumericChart) (h : renderNumericChart es tv = some c)
    (e : GoalEntry) (v : ℚ) (hv : e.value = some v) (c1 : NumericChart)
    (h1 : renderNumericChart [e] none = some c1) :
    (c.scaleMax - c.scaleMin = 0 → c.range = 1) ∧ 0 < c.range ∧
    c1.range = 1 ∧ c1.points = [(16, 108)] := by
  obtain ⟨hne, hc⟩ := renderNumericChart_some_iff.mp h
  have hfil : [e].filter (fun x => x.value.isSome) = [e] := by
    simp [hv]
  obtain ⟨-, hc1⟩ := renderNumericChart_some_iff.mp h1
  rw [hfil] at hc1
  have hrange1 : c1.range = 1 := by
    rw [hc1, core_range, core_scaleMax_none, core_scaleMin_none]
    simp [hv, jsMinList, jsMaxList]
  refine ⟨?_, ?_, hrange1, ?_⟩
  · intro h0
    rw [hc, core_range]
    rw [hc] at h0
    rw [if_pos h0]
  · rw [hc]
    exact core_range_pos _ _ hne
  · rw [hc1, core_points, core_stepX, core_scaleMin_none]
    rw [hc1] at hrange1
    rw [hrange1]
    simp [hv, jsMinList, List.enum]
    norm_num

/-- C4 witness. -/
theorem range_fallback_and_single_point_witness :
    ((renderNumericChartCore ([entA, entB].filter (fun e => e.value.isSome))
        none).scaleMax -
      (renderNumericChartCore ([entA, entB].filter (fun e => e.value.isSome))
        none).scaleMin = 0 →
      (renderNumericChartCore ([entA, entB].filter (fun e => e.value.isSome))
        none).range = 1) ∧
    0 < (renderNumericChartCore ([entA, entB].filter (fun e => e.value.isSome))
        none).range ∧
    (renderNumericChartCore ([entA].filter (fun e => e.value.isSome))
        none).range = 1 ∧
    (renderNumericChartCore ([entA].filter (fun e => e.value.isSome))
        none).points = [(16, 108)] :=
  range_fallback_and_single_point [entA, entB] none _
    (renderNumericChart_some_iff.mpr ⟨by decide, rfl⟩) entA 70 rfl _
    (renderNumericChart_some_iff.mpr ⟨by decide, rfl⟩)

/-- Scenario B entries: numeric values 80, 75, 70 on consecutive days. -/
def entS1 : GoalEntry := ⟨"s1", "g", 20000, none, some 80, none, 1⟩

def entS2 : GoalEntry := ⟨"s2", "g", 20001, none, some 75, none, 2⟩

def entS3 : GoalEntry := ⟨"s3", "g", 20002, none, some 70, none, 3⟩

/-- The chart of Scenario B: target 68 against values `[80, 75, 70]`. -/
def chartB : NumericChart :=
  renderNumericChartCore
    ([entS1, entS2, entS3].filter (fun e => e.value.isSome)) (some 68)

/-- C5: with a target present, `targetY` is always computed through the
shared transform `y(v) = H - Py - ((v - scaleMin)/range)(H - 2Py)` and
the target line is emitted iff `targetY` lies within `[Py, H - Py]`
inclusive; in Scenario B (target 68, values 80/75/70) the scale is
`[68, 80]`, `range = 12`, the line sits exactly on the bottom edge
`y = 108 = H - Py`, passes the inclusive gate, and is drawn. -/
theorem target_line_gate_and_bottom_edge (es : List GoalEntry) (t : ℚ)
    (c : NumericChart) (h : renderNumericChart es (some t) = some c) :
    (∃ ty, c.targetY = some ty ∧
      ty = 120 - 12 - ((t - c.scaleMin) / c.range) * (120 - 12 * 2) ∧
      (c.targetLineShown = true ↔ 12 ≤ ty ∧ ty ≤ 120 - 12)) ∧
    chartB.scaleMin = 68 ∧ chartB.scaleMax = 80 ∧ chartB.range = 12 ∧
    chartB.targetY = some (120 - 12) ∧ chartB.targetLineShown = true := by
  obtain ⟨hne, hc⟩ := renderNumericChart_some_iff.mp h
  have hpos : 0 < (renderNumericChartCore
      (es.filter (fun e => e.value.isSome)) (some t)).range :=
    core_range_pos _ _ hne
  have hBmin : chartB.scaleMin = 68 := by
    rw [chartB, core_scaleMin_some]
    norm_num [jsMinList, entS1, entS2, entS3]
  have hBmax : chartB.scaleMax = 80 := by
    rw [chartB, core_scaleMax_some]
    norm_num [jsMaxList, entS1, entS2, entS3]
  have hBrange : chartB.range = 12 := by
    rw [chartB, core_range]
    rw [show (renderNumericChartCore
        ([entS1, entS2, entS3].filter (fun e => e.value.isSome))
        (some 68)) = chartB from rfl, hBmin, hBmax]
    norm_num
  have hBty : chartB.targetY = some (120 - 12) := by
    rw [chartB, core_targetY_some]
    rw [show (renderNumericChartCore
        ([entS1, entS2, entS3].filter (fun e => e.value.isSome))
        (some 68)) = chartB from rfl, hBmin, hBrange]
    norm_num
  have hBshown : chartB.targetLineShown = true := by
    rw [chartB, core_targetLineShown]
    rw [show (renderNumericChartCore
        ([entS1, entS2, entS3].filter (fun e => e.value.isSome))
        (some 68)) = chartB from rfl, hBty]
    norm_num
  refine ⟨?_, hBmin, hBmax, hBrange, hBty, hBshown⟩
  subst hc
  rw [core_targetY_some, if_pos hpos]
  refine ⟨_, rfl, rfl, ?_⟩
  rw [core_targetLineShown, core_targetY_some, if_pos hpos]
  simp only [Option.isSome_some, Bool.true_and, Bool.and_eq_true,
    decide_eq_true_eq]

/-- C5 witness. -/
theorem target_line_gate_and_bottom_edge_witness :
    (∃ ty, chartB.targetY = some ty ∧
      ty = 120 - 12 - ((68 - chartB.scaleMin) / chartB.range) * (120 - 12 * 2) ∧
      (chartB.targetLineShown = true ↔ 12 ≤ ty ∧ ty ≤ 120 - 12)) ∧
    chartB.scaleMin = 68 ∧ chartB.scaleMax = 80 ∧ chartB.range = 12 ∧
    chartB.targetY = some (120 - 12) ∧ chartB.targetLineShown = true :=
  target_line_gate_and_bottom_edge [entS1, entS2, entS3] 68 chartB
    (renderNumericChart_some_iff.mpr ⟨by decide, rfl⟩)

/-- C7: the displayed Min/Max labels are the unscaled extrema of the
entry values only — the target never enters them — so whenever a present
target lies outside the data's natural range the labels differ strictly
from the plotting scale bounds. -/
theorem minmax_labels_unscaled (es : List GoalEntry) (tv : Option ℚ)
    (c : NumericChart) (h : renderNumericChart es tv = some c) :
    c.minVal = jsMinList (numericValues es) ∧
    c.maxVal = jsMaxList (numericValues es) ∧
    (∀ t, tv = some t →
      (t < c.minVal → c.scaleMin < c.minVal) ∧
      (c.maxVal < t → c.maxVal < c.scaleMax)) := by
  obtain ⟨hne, hc⟩ := renderNumericChart_some_iff.mp h
  subst hc
  refine ⟨core_minVal _ _, core_maxVal _ _, ?_⟩
  intro t ht
  subst ht
  constructor
  · intro hlt
    rw [core_scaleMin_some]
    rw [core_minVal] at hlt ⊢
    rw [min_eq_right (le_of_lt hlt)]
    exact hlt
  · intro hlt
    rw [core_scaleMax_some]
    rw [core_maxVal] at hlt ⊢
    rw [max_eq_right (le_of_lt hlt)]
    exact hlt

/-- C7 witness: in Scenario B the target 68 lies below the data minimum
70, so the displayed labels and the scale bounds split apart. -/
theorem minmax_labels_unscaled_witness :
    chartB.minVal = jsMinList (numericValues [entS1, entS2, entS3]) ∧
    chartB.maxVal = jsMaxList (numericValues [entS1, entS2, entS3]) ∧
    ((68 : ℚ) < chartB.minVal → chartB.scaleMin < chartB.minVal) ∧
    (chartB.maxVal < 68 → chartB.maxVal < chartB.scaleMax) := by
  obtain ⟨h1, h2, h3⟩ :=
    minmax_labels_unscaled [entS1, entS2, entS3] (some 68) chartB
      (renderNumericChart_some_iff.mpr ⟨by decide, rfl⟩)
  exact ⟨h1, h2, (h3 68 rfl).1, (h3 68 rfl).2⟩

/-- C9: with no target value, the dashboard trend chart and the
goal-detail page's sibling chart compute identical point sequences —
one shared coordinate transform, the detail chart merely omitting the
target overlay. -/
theorem detail_chart_shares_transform (es : List GoalEntry) :
    (renderNumericChart es none).map (fun c => c.points) =
      (detailRenderNumericChart es).map (fun c => c.points) := by
  have hcore : ∀ ne : List GoalEntry,
      (renderNumericChartCore ne none).points =
        (detailRenderNumericChartCore ne).points := fun ne => rfl
  unfold renderNumericChart detailRenderNumericChart
  by_cases h : (es.filter (fun e => e.value.isSome)).isEmpty
  · simp [h]
  · simp [h, hcore]

/-- C10: a NaN `target_value` fails the `hasTarget` guard and the chart
behaves exactly as with no target at all — same scale (unextended), no
computed target Y, no target line, identical output chart — while the
guard itself accepts any non-NaN number, infinities included. -/
theorem nan_target_behaves_as_absent (es : List GoalEntry) :
    renderNumericChartJs es (some JsNum.nan) = renderNumericChart es none ∧
    hasTargetJs (some JsNum.nan) = false ∧
    hasTargetJs none = false ∧
    (∀ q, hasTargetJs (some (JsNum.fin q)) = true) ∧
    hasTargetJs (some JsNum.posInf) = true ∧
    hasTargetJs (some JsNum.negInf) = true ∧
    (∀ c, renderNumericChartJs es (some JsNum.nan) = some c →
      c.hasTarget = false ∧ c.targetY = none ∧ c.targetLineShown = false ∧
      c.scaleMin = c.minVal ∧ c.scaleMax = c.maxVal) := by
  refine ⟨rfl, rfl, rfl, fun q => rfl, rfl, rfl, ?_⟩
  intro c hc
  obtain ⟨hne, hc⟩ := renderNumericChart_some_iff.mp hc
  subst hc
  simp only [show finiteTargetValue (some JsNum.nan) = none from rfl]
  refine ⟨core_hasTarget _ _, core_targetY_none _, ?_, ?_, ?_⟩
  · rw [core_targetLineShown, core_targetY_none]
  · rw [core_scaleMin_none, core_minVal]
  · rw [core_scaleMax_none, core_maxVal]

/-- C10 witness. -/
theorem nan_target_behaves_as_absent_witness :
    renderNumericChartJs [entA, entB] (some JsNum.nan) =
      renderNumericChart [entA, entB] none ∧
    hasTargetJs (some JsNum.nan) = false ∧
    hasTargetJs (some (JsNum.fin 68)) = true ∧
    hasTargetJs (some JsNum.posInf) = true ∧
    ((renderNumericChartCore ([entA, entB].filter (fun e => e.value.isSome))
        none).hasTarget = false ∧
      (renderNumericChartCore ([entA, entB].filter (fun e => e.value.isSome))
        none).targetY = none ∧
      (renderNumericChartCore ([entA, entB].filter (fun e => e.value.isSome))
        none).targetLineShown = false ∧
      (renderNumericChartCore ([entA, entB].filter (fun e => e.value.isSome))
        none).scaleMin =
        (renderNumericChartCore ([entA, entB].filter (fun e => e.value.isSome))
          none).scaleMin ∧
      (renderNumericChartCore ([entA, entB].filter (fun e => e.value.isSome))
        none).scaleMax =
        (renderNumericChartCore ([entA, entB].filter (fun e => e.value.isSome))
          none).scaleMax) := by
  obtain ⟨h1, h2, -, h4, h5, -, h7⟩ := nan_target_behaves_as_absent [entA, entB]
  obtain ⟨g1, g2, g3, -, -⟩ := h7 _ (renderNumericChart_some_iff.mpr ⟨by decide, rfl⟩)
  exact ⟨h1, h2, h4 68, h5, g1, g2, g3, rfl, rfl⟩

theorem blankCells_eq (n : Nat) : blankCells n = List.replicate n none := by
  induction n with
  | zero => rfl
  | succ n ih => rw [blankCells, ih, List.replicate_succ']

theorem dayCells_eq (n : Nat) : dayCells n = (List.range' 1 n).map some := by
  induction n with
  | zero => rfl
  | succ n ih =>
    rw [dayCells, ih, List.range'_concat, List.map_append]
    simp [Nat.add_comm]

theorem renderCheckinCalendar_some_iff {today : CalDate}
    {entries : List GoalEntry} {grid : List (Option (Nat × CellTag))} :
    renderCheckinCalendar today entries = some grid ↔
      entries ≠ [] ∧ doneDateKeys entries ≠ [] ∧
      grid = (blankCells (firstWeekdayOfMonth today.year today.month) ++
        dayCells (daysInMonth today.year today.month)).map (fun c =>
          c.map (fun d =>
            (d, cellTagOf (toDayNumber today) (doneDateKeys entries)
              (daysFromCivil today.year today.month d)))) := by
  unfold renderCheckinCalendar
  by_cases h1 : entries.isEmpty
  · rw [if_pos h1]
    constructor
    · intro hh
      exact Option.noConfusion hh
    · rintro ⟨hne, -, -⟩
      exact absurd (List.isEmpty_iff.mp h1) hne
  · rw [if_neg h1]
    show (if (doneDateKeys entries).isEmpty then none
      else some ((blankCells _ ++ dayCells _).map _)) = some grid ↔ _
    by_cases h2 : (doneDateKeys entries).isEmpty
    · rw [if_pos h2]
      constructor
      · intro hh
        exact Option.noConfusion hh
      · rintro ⟨-, hd, -⟩
        exact absurd (List.isEmpty_iff.mp h2) hd
    · rw [if_neg h2]
      rw [Option.some_inj]
      constructor
      · intro hh
        exact ⟨fun hc => h1 (by rw [hc]; rfl),
          fun hc => h2 (by rw [hc]; rfl), hh.symm⟩
      · rintro ⟨-, -, hg⟩
        exact hg.symm

/-- Scenario C entries: done check-ins on 2024-06-01 and 2024-06-15. -/
def entJ1 : GoalEntry :=
  ⟨"j1", "h", daysFromCivil 2024 6 1, some true, none, none, 10⟩

def entJ15 : GoalEntry :=
  ⟨"j15", "h", daysFromCivil 2024 6 15, some true, none, none, 20⟩

/-- Scenario C reference date. -/
def refJune : CalDate := ⟨2024, 6, 15⟩

/-- C6: every emitted month grid is exactly the reference month's
first-weekday count of leading blanks followed by one cell per day
1..N, each day tagged done when its date is in the done-set, else today
when it is the reference date, else plain; concretely, for reference
2024-06-15 with done days 1 and 15, June's grid has 6 blanks then 30
days, days 1 and 15 tagged done (done beats today on the 15th) and all
other days plain. -/
theorem calendar_grid_structure_and_tags (today : CalDate)
    (entries : List GoalEntry) (grid : List (Option (Nat × CellTag)))
    (h : renderCheckinCalendar today entries = some grid) :
    grid =
      List.replicate (firstWeekdayOfMonth today.year today.month) none ++
      (List.range' 1 (daysInMonth today.year today.month)).map (fun d =>
        some (d, cellTagOf (toDayNumber today) (doneDateKeys entries)
          (daysFromCivil today.year today.month d))) ∧
    renderCheckinCalendar refJune [entJ1, entJ15] =
      some (List.replicate 6 none ++ (List.range' 1 30).map (fun d =>
        some (d, if d = 1 ∨ d = 15 then CellTag.done else CellTag.plain))) := by
  obtain ⟨-, -, hg⟩ := renderCheckinCalendar_some_iff.mp h
  constructor
  · rw [hg, blankCells_eq, dayCells_eq, List.map_append, List.map_replicate,
      List.map_map]
    rfl
  · decide

/-- C6 witness. -/
theorem calendar_grid_structure_and_tags_witness :
    renderCheckinCalendar refJune [entJ1, entJ15] =
      some (List.replicate 6 none ++ (List.range' 1 30).map (fun d =>
        some (d, if d = 1 ∨ d = 15 then CellTag.done else CellTag.plain))) :=
  (calendar_grid_structure_and_tags refJune [entJ1, entJ15]
    (List.replicate 6 none ++ (List.range' 1 30).map (fun d =>
      some (d, if d = 1 ∨ d = 15 then CellTag.done else CellTag.plain)))
    (by decide)).2

/-- A sample goal for the composer witnesses. -/
def goalA : Goal :=
  ⟨"g1", none, "Reach 68 kg", none, GoalType.mid_term, some TrackerKind.numeric,
   some "kg", some 68, none, true, false, 0, 0, 0⟩

/-- C8: every pipeline stage is total over empty input: zero goals and
zero entries give the `([], [])` pinned/other view model; the calendar
emits no model when the done-set is empty; the trend renderer emits
nothing for zero numeric entries; and a failed store read (of goals or
of entries) is absorbed as empty goals / empty maps rather than an
error. -/
theorem pipeline_total_on_empty :
    (getDashboardData (Except.ok []) (Except.ok [])).goals = [] ∧
    buildDashboardViewModel
      (getDashboardData (Except.ok []) (Except.ok [])).goals = ([], []) ∧
    (∀ today entries, doneDateKeys entries = [] →
      renderCheckinCalendar today entries = none) ∧
    (∀ es tv, es.filter (fun e => e.value.isSome) = [] →
      renderNumericChart es tv = none) ∧
    (∀ entriesRes, getDashboardData (Except.error ()) entriesRes =
      ⟨[], fun _ => none, fun _ => []⟩) ∧
    (∀ gs, gs ≠ [] → getDashboardData (Except.ok gs) (Except.error ()) =
      ⟨gs, fun _ => none, fun _ => []⟩) := by
  refine ⟨rfl, rfl, ?_, ?_, fun entriesRes => rfl, ?_⟩
  · intro today entries hdone
    unfold renderCheckinCalendar
    by_cases h1 : entries.isEmpty
    · rw [if_pos h1]
    · rw [if_neg h1]
      show (if (doneDateKeys entries).isEmpty then none
        else some ((blankCells _ ++ dayCells _).map _)) = none
      rw [if_pos (by rw [hdone]; rfl)]
  · intro es tv hfil
    unfold renderNumericChart
    rw [if_pos (by rw [hfil]; rfl)]
  · intro gs hgs
    cases gs with
    | nil => exact absurd rfl hgs
    | cons g gs => rfl

/-- C8 witness. -/
theorem pipeline_total_on_empty_witness :
    renderCheckinCalendar refJune [entA] = none ∧
    renderNumericChart [entC] none = none ∧
    getDashboardData (Except.ok [goalA]) (Except.error ()) =
      ⟨[goalA], fun _ => none, fun _ => []⟩ := by
  obtain ⟨-, -, h3, h4, -, h6⟩ := pipeline_total_on_empty
  exact ⟨h3 refJune [entA] (by decide), h4 [entC] none (by decide),
    h6 [goalA] (by decide)⟩
